import Mathlib

/-!
A shallow embedding of the identity-and-composition core of the fuse
state-estimation library: the constraint interface of
src/fuse_core/include/fuse_core/constraint.h and the stamped variable of
src/fuse_variables/include/fuse_variables/acceleration_angular_2d_stamped.h.

C++ heap objects are modelled by an explicit `World` carrying the allocated
scalar buffers (one per constructed variable instance, indexed by allocation
order) and the position of the next draw from the process-wide random
source.  C++ `double` scalars are modelled as `Rat`: the embedded claims
concern only storage, identity and copying, never floating-point
arithmetic.
-/

namespace fuse_core

/-- A boost uuid: an opaque fixed-width value compared only for equality.
Modelled as a natural number, since no claim depends on the bit width. -/
abbrev UUID := Nat

/-- A ros::Time value: seconds and nanoseconds.  The claims use it only as
an opaque equality-comparable key. -/
structure Time where
  sec : Nat
  nsec : Nat
deriving DecidableEq

namespace uuid

/-- The nil uuid constant fuse_core::uuid::NIL, the default device id. -/
def NIL : UUID := 0

/-- Cantor pairing, the injection used to build the modelled hash below. -/
def pairNat (a b : Nat) : Nat := (a + b) * (a + b + 1) / 2 + b

/-- Numeric code of a string, used to feed the string discriminator into
the modelled hash below. -/
def strCode (s : String) : Nat :=
  s.foldl (fun a c => a * 1114112 + c.toNat + 1) 1

/-- Modelled from the spec: fuse_core::uuid::generate(type, stamp, device)
of the absent uuid.h, the content-derived mode of the Identity Subsystem —
"a deterministic hash of a type discriminator plus semantically-relevant
fields".  Any pure total function of exactly these inputs realises the
contract that identical inputs give identical identifiers; here a concrete
pairing of the three fields. -/
def generate (name : String) (stamp : Time) (deviceId : UUID) : UUID :=
  pairNat (pairNat (strCode name) (pairNat stamp.sec stamp.nsec)) deviceId

end uuid

/-- The mutable process state visible to the claims: the heap of allocated
scalar buffers and the number of draws already taken from the process-wide
random source.  Modelled from the spec: uuid.h is absent, and its random
mode "consumes entropy/state from a process-wide random source"; that
source is a stream passed as an `entropy` function, indexed by the draw
counter threaded here. -/
structure World where
  heap : List (List Rat)
  entropyPos : Nat
deriving DecidableEq

/-- Allocate a fresh scalar buffer: in C++ every constructed object owns
its own storage, modelled by appending to the heap and returning the new
index. -/
def World.alloc (w : World) (buf : List Rat) : Nat × World :=
  (w.heap.length, ⟨w.heap ++ [buf], w.entropyPos⟩)

/-- Read scalar `i` of buffer `b`. -/
def World.readBuf (w : World) (b i : Nat) : Rat :=
  (w.heap.getD b []).getD i 0

/-- Write scalar `i` of buffer `b`. -/
def World.writeBuf (w : World) (b i : Nat) (x : Rat) : World :=
  ⟨w.heap.set b ((w.heap.getD b []).set i x), w.entropyPos⟩

/-- One draw from the random source: the value at the current stream
position, advancing the position.  Modelled from the spec: the random mode
of uuid::generate() in the absent uuid.h. -/
def World.draw (w : World) (entropy : Nat → UUID) : UUID × World :=
  (entropy w.entropyPos, ⟨w.heap, w.entropyPos + 1⟩)

/-- The fuse_core::Constraint object state (constraint.h lines 176 to 179):
the uuid drawn at construction, the ordered endpoint list, and the
dynamic-type tag that typeid inspects, fixed when the most-derived object
is constructed. -/
structure Constraint where
  kind : String
  uuid_ : UUID
  variables_ : List UUID
deriving DecidableEq

/-- The loop body of the iterator-range constructor (constraint.h lines 191
to 194): while (first != last) variables_.push_back(*first++).  The
argument list is the sequence of values the range [first, last) yields, in
iteration order. -/
def copyLoop (acc : List UUID) : List UUID → List UUID
  | [] => acc
  | u :: rest => copyLoop (acc ++ [u]) rest

/-- The iterator-range constructor (constraint.h lines 187 to 195): the
member initializer draws uuid::generate(), then the body copies the range
element by element.  No check of any kind is performed on the range. -/
def Constraint.construct (kind : String) (entropy : Nat → UUID) (w : World)
    (range : List UUID) : Constraint × World :=
  let (u, w1) := w.draw entropy
  (⟨kind, u, copyLoop [] range⟩, w1)

/-- Modelled from the spec: the initializer-list constructor declared at
constraint.h line 84, whose body lives in the absent constraint.cpp.  Its
header documentation says it "Accepts an arbitrary number of variable UUIDs
directly", and the spec adds that "construction fails (rejects the input)
if the list is empty"; rejection is modelled as none.  On a non-empty list
it stores the listed uuids in order, with the same random uuid draw. -/
def Constraint.constructList (kind : String) (entropy : Nat → UUID)
    (w : World) (l : List UUID) : Option (Constraint × World) :=
  if l = [] then none
  else
    let (u, w1) := w.draw entropy
    some (⟨kind, u, l⟩, w1)

/-- Constraint::uuid() (constraint.h line 112): returns the stored uuid. -/
def Constraint.uuid (c : Constraint) : UUID := c.uuid_

/-- Constraint::variables() (constraint.h line 174): read-only access to
the ordered endpoint list. -/
def Constraint.variables (c : Constraint) : List UUID := c.variables_

/-- Constraint::type() (constraint.h line 105):
boost::core::demangle(typeid(*this).name()).  typeid reads the dynamic-type
tag; demangle is the external renaming applied to it, kept as a parameter
since boost is outside the excerpt. -/
def Constraint.type (demangle : String → String) (c : Constraint) : String :=
  demangle c.kind

/-- Constraint::lossFunction() (constraint.h lines 154 to 157): the
base-class body returns nullptr, i.e. none.  The pointee is opaque at this
layer; only null versus non-null is observable. -/
def Constraint.lossFunction (_ : Constraint) : Option Unit := none

/-- Constraint::clone() as the header prescribes (constraint.h lines 159 to
169): Derived::make_unique(*this), a member-wise copy; std::vector copies
its elements, so the copy is a value equal to the original in every
field. -/
def Constraint.clone (c : Constraint) : Constraint := c

end fuse_core

namespace fuse_variables

/-- The type discriminator of the one concrete variable kind in the
excerpt: its fully-qualified class name. -/
def accelerationAngular2DStampedType : String :=
  "fuse_variables::AccelerationAngular2DStamped"

/-- The fuse_variables::AccelerationAngular2DStamped object state
(acceleration_angular_2d_stamped.h lines 55 to 111): a one-scalar stamped
variable.  The timestamp, device id and uuid are fields fixed at
construction; the scalar array of FixedSizeVariable<1> is the instance-own
buffer `buf` in the world heap. -/
structure AccelerationAngular2DStamped where
  stamp : fuse_core.Time
  deviceId : fuse_core.UUID
  uuid_ : fuse_core.UUID
  buf : Nat
deriving DecidableEq

/-- Modelled from the spec: the constructor declared at
acceleration_angular_2d_stamped.h lines 74 to 76, whose body lives in the
absent acceleration_angular_2d_stamped.cpp.  Per the spec, the identity
"must equal generate_deterministic(kind, timestamp, device) computed at
construction", and each instance receives an independently zero-initialized
scalar buffer of its own. -/
def AccelerationAngular2DStamped.construct (stamp : fuse_core.Time)
    (deviceId : fuse_core.UUID) (w : fuse_core.World) :
    AccelerationAngular2DStamped × fuse_core.World :=
  let (b, w1) := w.alloc (List.replicate 1 0)
  (⟨stamp, deviceId,
    fuse_core.uuid.generate accelerationAngular2DStampedType stamp deviceId,
    b⟩, w1)

/-- AccelerationAngular2DStamped::uuid()
(acceleration_angular_2d_stamped.h line 93): returns the stored uuid.  The
world argument lets the statement speak about calls made at different
times; the result ignores it. -/
def AccelerationAngular2DStamped.uuid (v : AccelerationAngular2DStamped)
    (_ : fuse_core.World) : fuse_core.UUID := v.uuid_

/-- Read through the const overload of yaw()
(acceleration_angular_2d_stamped.h line 86): data_[YAW] with YAW = 0. -/
def AccelerationAngular2DStamped.yaw (v : AccelerationAngular2DStamped)
    (w : fuse_core.World) : Rat := w.readBuf v.buf 0

/-- Write through yaw() (acceleration_angular_2d_stamped.h line 81):
assigning through the returned reference stores into data_[YAW]. -/
def AccelerationAngular2DStamped.setYaw (v : AccelerationAngular2DStamped)
    (x : Rat) (w : fuse_core.World) : fuse_core.World :=
  w.writeBuf v.buf 0 x

/-- Modelled from the spec: clone(), declared at
acceleration_angular_2d_stamped.h line 107 with its body in the absent cpp
file.  Per the spec it is "a value-identical, fully independent copy (deep
copy of the scalar buffer and identity)": a fresh buffer holding the same
scalars, with identity, stamp and device unchanged. -/
def AccelerationAngular2DStamped.clone (v : AccelerationAngular2DStamped)
    (w : fuse_core.World) : AccelerationAngular2DStamped × fuse_core.World :=
  let (b, w1) := w.alloc (w.heap.getD v.buf [])
  (⟨v.stamp, v.deviceId, v.uuid_, b⟩, w1)

end fuse_variables

open fuse_core fuse_variables

/-- The constructor loop copies the range verbatim after the accumulator. -/
theorem copyLoop_eq (acc l : List UUID) : copyLoop acc l = acc ++ l := by
  induction l generalizing acc with
  | nil => simp [copyLoop]
  | cons u rest ih => simp [copyLoop, ih]

/-- Setting one list position leaves every other position unchanged. -/
theorem getD_set_ne {α : Type} (l : List α) (n m : Nat) (a d : α)
    (h : n ≠ m) : (l.set n a).getD m d = l.getD m d := by
  simp [List.getD_eq_getElem?_getD, List.getElem?_set_ne h]

/-- The buffer appended by an allocation is read back unchanged. -/
theorem getD_concat_length {α : Type} (l : List α) (b : α) (d : α) :
    (l ++ [b]).getD l.length d = b := by
  simp [List.getD_eq_getElem?_getD, List.getElem?_concat_length]

/-- Writing into one buffer leaves every other buffer unchanged. -/
theorem readBuf_writeBuf_of_ne (w : World) (b b2 i i2 : Nat) (x : Rat)
    (h : b ≠ b2) :
    (w.writeBuf b i x).readBuf b2 i2 = w.readBuf b2 i2 := by
  show ((w.heap.set b _).getD b2 []).getD i2 0 = (w.heap.getD b2 []).getD i2 0
  rw [getD_set_ne _ _ _ _ _ h]

/-- C1, counterexample: the iterator-range constructor accepts the empty
range.  A Constraint is produced whose variables() sequence is empty, so
the constructor does not reject the empty endpoint list and an instance
with empty variables() does exist. -/
theorem C1_counterexample :
    ((Constraint.construct "fuse_core::Constraint" (fun n => n)
      ⟨[], 0⟩ []).1).variables = [] := rfl

/-- C1, amended: the iterator-range constructor in the source performs no
emptiness check — constructing from an empty range succeeds, for any kind,
random source and process state, and yields an instance whose variables()
sequence is empty; the initializer-list constructor, whose body is absent
from the source and is modelled from the spec, rejects the empty list. -/
theorem C1_empty_range_accepted_list_ctor_rejects (kind : String)
    (entropy : Nat → UUID) (w : World) :
    (Constraint.construct kind entropy w []).1.variables = [] ∧
    Constraint.constructList kind entropy w [] = none :=
  ⟨rfl, rfl⟩

/-- C3: for every Constraint built from a non-empty endpoint list, by
either constructor, variables() is exactly the input sequence in input
order; the list is fixed at construction, and the one operation producing a
Constraint from a Constraint, clone(), preserves it. -/
theorem C3_variables_preserves_input_order (kind : String)
    (entropy : Nat → UUID) (w : World) (l : List UUID) (h : l ≠ []) :
    (Constraint.construct kind entropy w l).1.variables = l ∧
    (Constraint.constructList kind entropy w l).map
      (fun p => p.1.variables) = some l ∧
    ((Constraint.construct kind entropy w l).1.clone).variables = l := by
  refine ⟨?_, ?_, ?_⟩ <;>
    simp [Constraint.construct, Constraint.constructList,
      Constraint.variables, Constraint.clone, World.draw, copyLoop_eq, h]

/-- C3, witness at the concrete list [1, 2]. -/
theorem C3_witness :
    ([1, 2] : List UUID) ≠ [] ∧
    ((Constraint.construct "K" (fun n => n) ⟨[], 0⟩ [1, 2]).1.variables
        = [1, 2] ∧
      (Constraint.constructList "K" (fun n => n) ⟨[], 0⟩ [1, 2]).map
        (fun p => p.1.variables) = some [1, 2] ∧
      ((Constraint.construct "K" (fun n => n) ⟨[], 0⟩ [1, 2]).1.clone).variables
        = [1, 2]) :=
  ⟨by decide,
    C3_variables_preserves_input_order "K" (fun n => n) ⟨[], 0⟩ [1, 2]
      (by decide)⟩

/-- C4: two Constraints constructed independently, one after the other,
from the same endpoint list draw successive values from the random source,
so when the source does not collide they receive different uuids; and the
uuid drawn does not depend on the endpoint list at all. -/
theorem C4_independent_constructions_distinct_uuids (kind : String)
    (entropy : Nat → UUID) (w : World) (l l2 : List UUID)
    (hinj : Function.Injective entropy) :
    (Constraint.construct kind entropy w l).1.uuid ≠
      (Constraint.construct kind entropy
        (Constraint.construct kind entropy w l).2 l).1.uuid ∧
    (Constraint.construct kind entropy w l).1.uuid =
      (Constraint.construct kind entropy w l2).1.uuid := by
  refine ⟨fun hEq => ?_, rfl⟩
  have hEq2 : entropy w.entropyPos = entropy (w.entropyPos + 1) := hEq
  have := hinj hEq2
  omega

/-- C4, witness with the identity stream, which never collides. -/
theorem C4_witness :
    Function.Injective (fun n : Nat => n) ∧
    ((Constraint.construct "K" (fun n => n) ⟨[], 0⟩ [1]).1.uuid ≠
        (Constraint.construct "K" (fun n => n)
          (Constraint.construct "K" (fun n => n) ⟨[], 0⟩ [1]).2 [1]).1.uuid ∧
      (Constraint.construct "K" (fun n => n) ⟨[], 0⟩ [1]).1.uuid =
        (Constraint.construct "K" (fun n => n) ⟨[], 0⟩ [2]).1.uuid) :=
  ⟨fun _ _ hh => hh,
    C4_independent_constructions_distinct_uuids "K" (fun n => n) ⟨[], 0⟩
      [1] [2] (fun _ _ hh => hh)⟩

/-- C5: at construction exactly one value is drawn from the random source
and stored; uuid() returns that stored value, and no operation of the
interface produces a Constraint with a changed uuid, clone() included. -/
theorem C5_uuid_generated_once_at_construction (kind : String)
    (entropy : Nat → UUID) (w : World) (l : List UUID) :
    (Constraint.construct kind entropy w l).1.uuid = entropy w.entropyPos ∧
    (Constraint.construct kind entropy w l).2.entropyPos
      = w.entropyPos + 1 ∧
    ∀ c : Constraint, c.uuid = c.uuid_ ∧ c.clone.uuid = c.uuid :=
  ⟨rfl, rfl, fun _ => ⟨rfl, rfl⟩⟩

/-- C6: type() is a pure function of the dynamic-type tag alone, so every
instance of one concrete kind returns the same string on every call; and
when the demangler is injective on type names, distinct kinds return
distinct strings. -/
theorem C6_type_stable_per_kind_distinct_across_kinds
    (demangle : String → String) (hinj : Function.Injective demangle)
    (c1 c2 : Constraint) :
    (c1.kind = c2.kind → c1.type demangle = c2.type demangle) ∧
    (c1.kind ≠ c2.kind → c1.type demangle ≠ c2.type demangle) := by
  constructor
  · intro h
    simp [Constraint.type, h]
  · intro h hEq
    have hEq2 : demangle c1.kind = demangle c2.kind := hEq
    exact h (hinj hEq2)

/-- C6, witness: with the identity demangler, two instances of distinct
kinds return distinct type strings. -/
theorem C6_witness :
    Function.Injective (fun s : String => s) ∧
    ((⟨"A", 0, []⟩ : Constraint).kind = (⟨"A", 1, [2]⟩ : Constraint).kind →
      (⟨"A", 0, []⟩ : Constraint).type (fun s => s) =
        (⟨"A", 1, [2]⟩ : Constraint).type (fun s => s)) ∧
    ((⟨"A", 0, []⟩ : Constraint).kind ≠ (⟨"B", 0, []⟩ : Constraint).kind →
      (⟨"A", 0, []⟩ : Constraint).type (fun s => s) ≠
        (⟨"B", 0, []⟩ : Constraint).type (fun s => s)) :=
  ⟨fun _ _ hh => hh,
    (C6_type_stable_per_kind_distinct_across_kinds (fun s => s)
      (fun _ _ hh => hh) ⟨"A", 0, []⟩ ⟨"A", 1, [2]⟩).1,
    (C6_type_stable_per_kind_distinct_across_kinds (fun s => s)
      (fun _ _ hh => hh) ⟨"A", 0, []⟩ ⟨"B", 0, []⟩).2⟩

/-- C8: the base-class default lossFunction() returns none for every
Constraint, whatever its endpoints, kind or identity. -/
theorem C8_lossFunction_defaults_to_none :
    ∀ c : Constraint, c.lossFunction = none :=
  fun _ => rfl

/-- C10: the iterator-range constructor copies its input verbatim: the
variables() sequence equals the input element for element, so its length is
the range length and every uuid keeps its multiplicity — no deduplication,
reordering or validation happens. -/
theorem C10_iterator_range_copies_verbatim (kind : String)
    (entropy : Nat → UUID) (w : World) (l : List UUID) :
    (Constraint.construct kind entropy w l).1.variables = l ∧
    ((Constraint.construct kind entropy w l).1.variables).length
      = l.length ∧
    ∀ u : UUID,
      ((Constraint.construct kind entropy w l).1.variables).count u
        = l.count u := by
  have h : (Constraint.construct kind entropy w l).1.variables = l := by
    simp [Constraint.construct, Constraint.variables, World.draw, copyLoop_eq]
  exact ⟨h, by rw [h], fun u => by rw [h]⟩


/-- Unfolding equation of the modelled stamped-variable constructor. -/
theorem construct_eq (stamp : Time) (dev : UUID) (w : World) :
    AccelerationAngular2DStamped.construct stamp dev w =
      (⟨stamp, dev,
          uuid.generate accelerationAngular2DStampedType stamp dev,
          w.heap.length⟩,
        ⟨w.heap ++ [List.replicate 1 0], w.entropyPos⟩) := rfl

/-- Unfolding equation of the modelled stamped-variable clone. -/
theorem clone_eq (v : AccelerationAngular2DStamped) (w : World) :
    v.clone w =
      (⟨v.stamp, v.deviceId, v.uuid_, w.heap.length⟩,
        ⟨w.heap ++ [w.heap.getD v.buf []], w.entropyPos⟩) := rfl

/-- C2: two AccelerationAngular2DStamped instances built with the same
timestamp and device, in any process states, have equal uuids; two
instances built one after the other occupy distinct buffers, and a write
through yaw() of one never changes what yaw() of the other reads, in
either direction. -/
theorem C2_same_inputs_same_uuid_independent_storage (stamp : Time)
    (dev : UUID) (w wB : World) :
    (AccelerationAngular2DStamped.construct stamp dev w).1.uuid_ =
      (AccelerationAngular2DStamped.construct stamp dev wB).1.uuid_ ∧
    (AccelerationAngular2DStamped.construct stamp dev w).1.buf ≠
      (AccelerationAngular2DStamped.construct stamp dev
        (AccelerationAngular2DStamped.construct stamp dev w).2).1.buf ∧
    ∀ (w2 : World) (x : Rat),
      (AccelerationAngular2DStamped.construct stamp dev
          (AccelerationAngular2DStamped.construct stamp dev w).2).1.yaw
        ((AccelerationAngular2DStamped.construct stamp dev w).1.setYaw x w2)
        = (AccelerationAngular2DStamped.construct stamp dev
            (AccelerationAngular2DStamped.construct stamp dev w).2).1.yaw w2
      ∧ (AccelerationAngular2DStamped.construct stamp dev w).1.yaw
          ((AccelerationAngular2DStamped.construct stamp dev
            (AccelerationAngular2DStamped.construct stamp dev w).2).1.setYaw
              x w2)
        = (AccelerationAngular2DStamped.construct stamp dev w).1.yaw w2 := by
  refine ⟨rfl, ?_, ?_⟩
  · simp only [construct_eq]
    simp
  · intro w2 x
    simp only [construct_eq, AccelerationAngular2DStamped.yaw,
      AccelerationAngular2DStamped.setYaw]
    constructor
    · exact readBuf_writeBuf_of_ne w2 w.heap.length
        (w.heap ++ [List.replicate 1 0]).length 0 0 x (by simp)
    · exact readBuf_writeBuf_of_ne w2
        (w.heap ++ [List.replicate 1 0]).length w.heap.length 0 0 x (by simp)

/-- C7: the uuid of a constructed AccelerationAngular2DStamped is a
function of the type discriminator, timestamp and device only; a write
through yaw() leaves uuid() unchanged, and uuid() returns the same value in
every process state over the lifetime of the instance. -/
theorem C7_uuid_unaffected_by_scalar_writes (stamp : Time) (dev : UUID)
    (w w1 w2 : World) (x : Rat) :
    (AccelerationAngular2DStamped.construct stamp dev w).1.uuid
        ((AccelerationAngular2DStamped.construct stamp dev w).1.setYaw x w1)
      = (AccelerationAngular2DStamped.construct stamp dev w).1.uuid w1 ∧
    (AccelerationAngular2DStamped.construct stamp dev w).1.uuid w1
      = (AccelerationAngular2DStamped.construct stamp dev w).1.uuid w2 ∧
    (AccelerationAngular2DStamped.construct stamp dev w).1.uuid w1
      = uuid.generate accelerationAngular2DStampedType stamp dev :=
  ⟨rfl, rfl, rfl⟩

/-- C9: clone() of an AccelerationAngular2DStamped whose buffer is a live
allocation copies identity, stamp, device and scalar value, places the copy
in a fresh buffer, and a write through either buffer never changes reads of
the other; clone() of a Constraint preserves its uuid and endpoint list
(the Constraint copy is member-wise on plain values, and the model has no
operation that mutates a Constraint). -/
theorem C9_clone_equal_fields_independent_storage
    (v : AccelerationAngular2DStamped) (w : World)
    (h : v.buf < w.heap.length) :
    ((v.clone w).1.uuid_ = v.uuid_ ∧ (v.clone w).1.stamp = v.stamp ∧
      (v.clone w).1.deviceId = v.deviceId) ∧
    (v.clone w).1.yaw (v.clone w).2 = v.yaw w ∧
    (v.clone w).1.buf ≠ v.buf ∧
    (∀ (w2 : World) (x : Rat),
      v.yaw ((v.clone w).1.setYaw x w2) = v.yaw w2 ∧
      (v.clone w).1.yaw (v.setYaw x w2) = (v.clone w).1.yaw w2) ∧
    ∀ c : Constraint, c.clone.uuid = c.uuid ∧
      c.clone.variables = c.variables := by
  have hne : (v.clone w).1.buf ≠ v.buf := by
    simp only [clone_eq]
    omega
  refine ⟨⟨rfl, rfl, rfl⟩, ?_, hne, ?_, fun _ => ⟨rfl, rfl⟩⟩
  · simp only [clone_eq, AccelerationAngular2DStamped.yaw, World.readBuf]
    rw [getD_concat_length]
  · intro w2 x
    simp only [clone_eq] at hne ⊢
    simp only [AccelerationAngular2DStamped.yaw,
      AccelerationAngular2DStamped.setYaw]
    exact ⟨readBuf_writeBuf_of_ne w2 w.heap.length v.buf 0 0 x hne,
      readBuf_writeBuf_of_ne w2 v.buf w.heap.length 0 0 x
        (fun hh => hne hh.symm)⟩

/-- C9, witness on a one-buffer world. -/
theorem C9_witness :
    (⟨⟨1, 2⟩, 0, 7, 0⟩ : AccelerationAngular2DStamped).buf <
      (⟨[[5]], 0⟩ : World).heap.length ∧
    (((AccelerationAngular2DStamped.clone ⟨⟨1, 2⟩, 0, 7, 0⟩
            ⟨[[5]], 0⟩).1.uuid_
          = (⟨⟨1, 2⟩, 0, 7, 0⟩ : AccelerationAngular2DStamped).uuid_ ∧
        (AccelerationAngular2DStamped.clone ⟨⟨1, 2⟩, 0, 7, 0⟩
            ⟨[[5]], 0⟩).1.stamp
          = (⟨⟨1, 2⟩, 0, 7, 0⟩ : AccelerationAngular2DStamped).stamp ∧
        (AccelerationAngular2DStamped.clone ⟨⟨1, 2⟩, 0, 7, 0⟩
            ⟨[[5]], 0⟩).1.deviceId
          = (⟨⟨1, 2⟩, 0, 7, 0⟩ : AccelerationAngular2DStamped).deviceId) ∧
      (AccelerationAngular2DStamped.clone ⟨⟨1, 2⟩, 0, 7, 0⟩
          ⟨[[5]], 0⟩).1.yaw
        (AccelerationAngular2DStamped.clone ⟨⟨1, 2⟩, 0, 7, 0⟩
          ⟨[[5]], 0⟩).2
        = (⟨⟨1, 2⟩, 0, 7, 0⟩ : AccelerationAngular2DStamped).yaw
            ⟨[[5]], 0⟩ ∧
      (AccelerationAngular2DStamped.clone ⟨⟨1, 2⟩, 0, 7, 0⟩
          ⟨[[5]], 0⟩).1.buf
        ≠ (⟨⟨1, 2⟩, 0, 7, 0⟩ : AccelerationAngular2DStamped).buf ∧
      (∀ (w2 : World) (x : Rat),
        (⟨⟨1, 2⟩, 0, 7, 0⟩ : AccelerationAngular2DStamped).yaw
            ((AccelerationAngular2DStamped.clone ⟨⟨1, 2⟩, 0, 7, 0⟩
              ⟨[[5]], 0⟩).1.setYaw x w2)
          = (⟨⟨1, 2⟩, 0, 7, 0⟩ : AccelerationAngular2DStamped).yaw w2 ∧
        (AccelerationAngular2DStamped.clone ⟨⟨1, 2⟩, 0, 7, 0⟩
            ⟨[[5]], 0⟩).1.yaw
            ((⟨⟨1, 2⟩, 0, 7, 0⟩ : AccelerationAngular2DStamped).setYaw x w2)
          = (AccelerationAngular2DStamped.clone ⟨⟨1, 2⟩, 0, 7, 0⟩
              ⟨[[5]], 0⟩).1.yaw w2) ∧
      ∀ c : Constraint, c.clone.uuid = c.uuid ∧
        c.clone.variables = c.variables) :=
  ⟨by decide,
    C9_clone_equal_fields_independent_storage ⟨⟨1, 2⟩, 0, 7, 0⟩ ⟨[[5]], 0⟩
      (by decide)⟩
